import Mathlib

/-!
Verification of the Traveloka room-rate scraper (`src/app.py`).

The development shallowly embeds the Python code of `app.py`:

* JSON values are modelled by `JValue`; Python dict/attribute/type errors by
  `PyErr`, and every fallible Python operation by a function into
  `Except PyErr _`.
* `TravelokaScraper._normalize_rate` is split, exactly as the source is, into
  the part that computes the local variables (`runParts`, lines 436-476 of
  `app.py`) and the part that assembles the output dictionary (`mkRecord`,
  lines 478-503).
* `TravelokaScraper._extract_rates` becomes `extractRates`, which also counts
  the per-rate log messages and records whether the surrounding
  try/except aborted.
* `TravelokaScraper._calculate_nights` becomes `calculateNights`, built on a
  model of Python `int(str)` parsing and of `datetime` construction and
  subtraction (`toOrdinal`).
* `TravelokaScraper._make_request` becomes `makeRequest`, parametrised by the
  sequence of HTTP outcomes the network produces, and additionally a timed
  model (`timedRequest`) captures the `_respect_rate_limit` clock logic.
* `TravelokaScraper.scrape`, `_generate_deep_link`, `_build_request_payload`
  and the `TravelokaDataValidator` checks are embedded likewise.
-/

/-- The kind of detail carried by a Python `ValueError` relevant here:
`int("xx")` raises an invalid-literal error; `datetime(y, m, d)` raises
range errors.  `invalidDate` is the dedicated clear invalid-date error the
specification asks for; the code never produces it. -/
inductive ErrKind where
  | invalidLiteral (s : String)
  | yearOutOfRange
  | monthOutOfRange
  | dayOutOfRange
  | invalidDate
deriving DecidableEq, Repr

/-- Python exceptions that the embedded code can raise. -/
inductive PyErr where
  | attributeError
  | typeError
  | valueError (k : ErrKind)
deriving DecidableEq, Repr

/-- JSON values, as delivered by `response.json()`.  Numbers are modelled as
integers: the response fields the scraper touches are integer amounts, and
the only numeric operations the code performs on them are ordering and
addition. -/
inductive JValue where
  | null
  | bool (b : Bool)
  | num (q : Int)
  | str (s : String)
  | arr (xs : List JValue)
  | obj (fields : List (String × JValue))

/-- Python dict objects (`JValue.obj` payload). -/
abbrev JObj := List (String × JValue)

/-- First-match key lookup in a dict (keys are unique in Python dicts). -/
def jlookup : JObj → String → Option JValue
  | [], _ => none
  | (k, v) :: rest, key => if k = key then some v else jlookup rest key

/-- `d.get(key, default)` on a value already known to be a dict. -/
def objGet (o : JObj) (key : String) (dflt : JValue) : JValue :=
  (jlookup o key).getD dflt

/-- `v.get(key, default)`: raises `AttributeError` unless `v` is a dict. -/
def dictGet (v : JValue) (key : String) (dflt : JValue) : Except PyErr JValue :=
  match v with
  | .obj o => .ok (objGet o key dflt)
  | _ => .error .attributeError

/-- Python `<` on the value shapes the scraper can meet: numbers (with
booleans coerced to 0/1) and strings compare; other mixes raise
`TypeError`, in particular any comparison against `None`. -/
def pyLt : JValue → JValue → Except PyErr Bool
  | .num a, .num b => .ok (decide (a < b))
  | .num a, .bool b => .ok (decide (a < if b then 1 else 0))
  | .bool a, .num b => .ok (decide ((if a then (1 : Int) else 0) < b))
  | .bool a, .bool b => .ok (decide ((if a then (1 : Int) else 0) < if b then 1 else 0))
  | .str a, .str b => .ok (decide (a < b))
  | _, _ => .error .typeError

/-- Python `+` on numbers (booleans coerced), strings and lists. -/
def pyAdd : JValue → JValue → Except PyErr JValue
  | .num a, .num b => .ok (.num (a + b))
  | .num a, .bool b => .ok (.num (a + if b then 1 else 0))
  | .bool a, .num b => .ok (.num ((if a then (1 : Int) else 0) + b))
  | .bool a, .bool b => .ok (.num ((if a then (1 : Int) else 0) + if b then 1 else 0))
  | .str a, .str b => .ok (.str (a ++ b))
  | .arr a, .arr b => .ok (.arr (a ++ b))
  | _, _ => .error .typeError

/-- Python iteration (`for x in v`): lists yield elements, strings yield
one-character strings, dicts yield their keys; other values raise
`TypeError`. -/
def pyIter : JValue → Except PyErr (List JValue)
  | .arr xs => .ok xs
  | .str s => .ok (s.data.map fun c => .str (String.singleton c))
  | .obj fs => .ok (fs.map fun kv => .str kv.1)
  | _ => .error .typeError

/-- `v.lower()`: only strings have the method. -/
def pyLower : JValue → Except PyErr String
  | .str s => .ok s.toLower
  | _ => .error .attributeError

/-- Python truthiness of a JSON value. -/
def pyTruthy : JValue → Bool
  | .null => false
  | .bool b => b
  | .num q => decide (q ≠ 0)
  | .str s => decide (s ≠ "")
  | .arr [] => false
  | .arr (_ :: _) => true
  | .obj [] => false
  | .obj (_ :: _) => true

/-- The local variables `_normalize_rate` computes before building its output
dictionary (`app.py` lines 436-476).  `discount` packs the joint
`discounted_price`/`original_price` pair, which the source sets together
when `shown_price < net_price` and leaves `None` otherwise. -/
structure NormParts where
  rate_name : JValue
  net_price : JValue
  net_price_per_night : JValue
  shown_price : JValue
  shown_price_per_night : JValue
  total_price : JValue
  total_price_per_night : JValue
  total_taxes : JValue
  discount : Option (JValue × JValue)
  breakfast_included : Bool
  cancellation_policy : JValue
  num_guests : JValue
  currency : JValue

/-- The generator inside `any(inc.get("id", "").lower() == "free_breakfast"
for inc in includes)`: short-circuits on the first match, raises on the
first element that is not a dict or whose id is not a string. -/
def anyBreakfast : List JValue → Except PyErr Bool
  | [] => .ok false
  | inc :: rest =>
    match inc with
    | .obj io =>
      match pyLower (objGet io "id" (.str "")) with
      | .ok s => if s = "free_breakfast" then .ok true else anyBreakfast rest
      | .error e => .error e
    | _ => .error .attributeError

/-- `next((p.get("description", "") for p in policies if
p.get("type", "").lower() == "cancellation"), "Not specified")`. -/
def findCancellation : List JValue → Except PyErr JValue
  | [] => .ok (.str "Not specified")
  | p :: rest =>
    match p with
    | .obj po =>
      match pyLower (objGet po "type" (.str "")) with
      | .ok t =>
        if t = "cancellation" then .ok (objGet po "description" (.str ""))
        else findCancellation rest
      | .error e => .error e
    | _ => .error .attributeError

/-- Lines 436-476 of `app.py`: compute every local of `_normalize_rate`.
Each `rate_data.get` needs `rate_data` to be a dict, each `price_data.get`
needs the `price` field to be a dict, and so on; the comparison, the
breakfast scan, the policy scan and the guest addition can each raise. -/
def runParts (rate_data : JValue) : Except PyErr NormParts :=
  match rate_data with
  | .obj ro =>
    let rate_name := objGet ro "name" (.str "")
    match objGet ro "price" (.obj []) with
    | .obj po =>
      let net_price := objGet po "netPrice" (.num 0)
      let net_price_per_night := objGet po "netPricePerNight" net_price
      let shown_price := objGet po "shownPrice" net_price
      let shown_price_per_night := objGet po "shownPricePerNight" shown_price
      let total_price := objGet po "totalPrice" shown_price
      let total_price_per_night := objGet po "totalPricePerNight" total_price
      match objGet po "taxes" (.obj []) with
      | .obj toxs =>
        let total_taxes := objGet toxs "totalTaxAmount" (.num 0)
        match pyLt shown_price net_price with
        | .ok isDisc =>
          let discount := if isDisc then some (shown_price, net_price) else none
          match pyIter (objGet ro "includes" (.arr [])) with
          | .ok incs =>
            match anyBreakfast incs with
            | .ok breakfast_included =>
              match pyIter (objGet ro "policies" (.arr [])) with
              | .ok pols =>
                match findCancellation pols with
                | .ok cancellation_policy =>
                  match objGet ro "occupancy" (.obj []) with
                  | .obj oo =>
                    match pyAdd (objGet oo "numAdults" (.num 0))
                        (objGet oo "numChildren" (.num 0)) with
                    | .ok num_guests =>
                      .ok {
                        rate_name := rate_name
                        net_price := net_price
                        net_price_per_night := net_price_per_night
                        shown_price := shown_price
                        shown_price_per_night := shown_price_per_night
                        total_price := total_price
                        total_price_per_night := total_price_per_night
                        total_taxes := total_taxes
                        discount := discount
                        breakfast_included := breakfast_included
                        cancellation_policy := cancellation_policy
                        num_guests := num_guests
                        currency := objGet ro "currency" (.str "THB") }
                    | .error e => .error e
                  | _ => .error .attributeError
                | .error e => .error e
              | .error e => .error e
            | .error e => .error e
          | .error e => .error e
        | .error e => .error e
      | _ => .error .attributeError
    | _ => .error .attributeError
  | _ => .error .attributeError

/-- Lines 478-503 of `app.py`: assemble the `normalized` dictionary from the
computed locals. -/
def mkRecord (room_name : JValue) (p : NormParts) : JObj :=
  let base : JObj :=
    [("room_name", room_name),
     ("rate_name", p.rate_name),
     ("number_of_guests", p.num_guests),
     ("cancellation_policy", p.cancellation_policy),
     ("breakfast", .str (if p.breakfast_included then "Included" else "Not included")),
     ("currency", p.currency),
     ("total_taxes", p.total_taxes)]
  let priced : JObj :=
    match p.discount with
    | some (dp, op) => base ++ [("price", dp), ("original_price", op)]
    | none => base ++ [("price", p.shown_price)]
  let withTotal : JObj := priced ++ [("total_price", p.total_price)]
  if pyTruthy p.shown_price_per_night then
    withTotal ++
      [("shown_price_per_stay", p.shown_price_per_night),
       ("net_price_per_stay", p.net_price_per_night),
       ("total_price_per_stay", p.total_price_per_night)]
  else withTotal

/-- `TravelokaScraper._normalize_rate`: any exception is caught, logged and
turned into `None`. -/
def normalizeRate (room_name : JValue) (rate_data : JValue) : Option JObj :=
  match runParts rate_data with
  | .ok p => some (mkRecord room_name p)
  | .error _ => none

/-- The inner loop of `_extract_rates` over one room's rate list: normalized
records in order, plus the count of "Error normalizing rate" log messages. -/
def processRates (room_name : JValue) : List JValue → List JObj × Nat
  | [] => ([], 0)
  | rate :: rest =>
    let acc := processRates room_name rest
    match normalizeRate room_name rate with
    | some r => (r :: acc.1, acc.2)
    | none => (acc.1, acc.2 + 1)

/-- `room.get("name", "")`, `room.get("rates", [])` and the iteration over
the rate list, all of which can raise when a room is malformed. -/
def roomPieces (room : JValue) : Except PyErr (JValue × List JValue) :=
  match dictGet room "name" (.str "") with
  | .ok rn =>
    match dictGet room "rates" (.arr []) with
    | .ok rlv =>
      match pyIter rlv with
      | .ok rl => .ok (rn, rl)
      | .error e => .error e
    | .error e => .error e
  | .error e => .error e

/-- The loop of `_extract_rates` over the rooms list.  The boolean flags that
an exception escaped to the surrounding `try`; records of the aborted run
are discarded by the caller but warnings already logged stand. -/
def processRooms : List JValue → List JObj × Nat × Bool
  | [] => ([], 0, false)
  | room :: rest =>
    match roomPieces room with
    | .error _ => ([], 0, true)
    | .ok (rn, rl) =>
      let here := processRates rn rl
      let there := processRooms rest
      (here.1 ++ there.1, here.2 + there.2.1, there.2.2)

/-- What `_extract_rates` produces: the returned list, the number of
per-rate "Error normalizing rate" log messages, and whether the
outer `except` fired (in which case the function returned `[]`). -/
structure ExtractResult where
  records : List JObj
  warnings : Nat
  aborted : Bool

/-- `TravelokaScraper._extract_rates`. -/
def extractRates (response_data : JValue) : ExtractResult :=
  match dictGet response_data "data" (.obj []) with
  | .error _ => ⟨[], 0, true⟩
  | .ok data =>
    match dictGet data "rooms" (.arr []) with
    | .error _ => ⟨[], 0, true⟩
    | .ok roomsV =>
      match pyIter roomsV with
      | .error _ => ⟨[], 0, true⟩
      | .ok rooms =>
        let res := processRooms rooms
        ⟨if res.2.2 then [] else res.1, res.2.1, res.2.2⟩

/-- `field in rate` for a dict. -/
def keyIn (r : JObj) (k : String) : Bool :=
  (jlookup r k).isSome

/-- `TravelokaDataValidator.validate_rate`. -/
def validateRate (rate : JObj) : Bool :=
  ["room_name", "rate_name", "number_of_guests", "cancellation_policy",
   "breakfast", "price", "currency", "total_taxes", "total_price"].all
    (fun f => keyIn rate f)

/-- `TravelokaDataValidator.validate_result` on a result dictionary. -/
def validateResult (result : JObj) : Bool :=
  keyIn result "rates" &&
  (match jlookup result "rates" with
   | some (.arr _) => true
   | _ => false) &&
  keyIn result "deep_link" &&
  keyIn result "success"

/-- Holds when key `k`, if present in `o`, has a value satisfying `p`. -/
def optField (o : JObj) (k : String) (p : JValue → Bool) : Bool :=
  match jlookup o k with
  | none => true
  | some v => p v

/-- Is a JSON number. -/
def isNum : JValue → Bool
  | .num _ => true
  | _ => false

/-- Is a JSON string. -/
def isStr : JValue → Bool
  | .str _ => true
  | _ => false

/-- A well-formed `price` sub-object: a dict whose optional price fields are
numbers and whose optional `taxes` field is a dict. -/
def wellFormedPrice : JValue → Bool
  | .obj po =>
    optField po "netPrice" isNum &&
    optField po "netPricePerNight" isNum &&
    optField po "shownPrice" isNum &&
    optField po "shownPricePerNight" isNum &&
    optField po "totalPrice" isNum &&
    optField po "totalPricePerNight" isNum &&
    optField po "taxes" (fun t =>
      match t with
      | .obj _ => true
      | _ => false)
  | _ => false

/-- A well-formed element of the `includes` list. -/
def wellFormedInclude : JValue → Bool
  | .obj io => optField io "id" isStr
  | _ => false

/-- A well-formed element of the `policies` list. -/
def wellFormedPolicy : JValue → Bool
  | .obj po => optField po "type" isStr
  | _ => false

/-- A well-formed rate entry: a dict whose optional `name`/`currency` are
strings, whose optional `price` is a well-formed price dict, whose
optional `includes`/`policies` are lists of well-formed elements and whose
optional `occupancy` is a dict with numeric optional counts. -/
def wellFormedRate : JValue → Bool
  | .obj ro =>
    optField ro "name" isStr &&
    optField ro "price" wellFormedPrice &&
    optField ro "currency" isStr &&
    optField ro "includes" (fun v =>
      match v with
      | .arr xs => xs.all wellFormedInclude
      | _ => false) &&
    optField ro "policies" (fun v =>
      match v with
      | .arr xs => xs.all wellFormedPolicy
      | _ => false) &&
    optField ro "occupancy" (fun v =>
      match v with
      | .obj oo => optField oo "numAdults" isNum && optField oo "numChildren" isNum
      | _ => false)
  | _ => false

/-- A well-formed room entry: a dict whose optional `name` is a string and
whose optional `rates` field is a list of well-formed rate entries. -/
def wellFormedRoom : JValue → Bool
  | .obj o =>
    optField o "name" isStr &&
    optField o "rates" (fun v =>
      match v with
      | .arr xs => xs.all wellFormedRate
      | _ => false)
  | _ => false

/-- Key `k` is present in `r` with a value other than JSON `null`. -/
def nonNullKey (r : JObj) (k : String) : Bool :=
  match jlookup r k with
  | some .null => false
  | some _ => true
  | none => false

/-- The record fields the specification requires of every emitted record:
non-null `room_name`, `rate_name`, `price`, `currency` and `total_price`. -/
def goodRecordB (r : JObj) : Bool :=
  nonNullKey r "room_name" && nonNullKey r "rate_name" && nonNullKey r "price" &&
  nonNullKey r "currency" && nonNullKey r "total_price"

/-- The rate entries the rooms loop of `_extract_rates` iterates over for one
room (the `rates` list, defaulting to empty). -/
def ratesOf : JValue → List JValue
  | .obj o =>
    match jlookup o "rates" with
    | some (.arr xs) => xs
    | some _ => []
    | none => []
  | _ => []

/-- All rate entries of a rooms list, in iteration order. -/
def allRates (rooms : List JValue) : List JValue :=
  rooms.flatMap ratesOf

/-- A room whose structure lets the rooms loop body run without raising:
a dict whose `rates` field, if present, is a list. -/
def roomStructOk : JValue → Bool
  | .obj o =>
    optField o "rates" (fun v =>
      match v with
      | .arr _ => true
      | _ => false)
  | _ => false

/-- The response shape `{"data": {"rooms": rooms}}` fed to `_extract_rates`. -/
def roomsResponse (rooms : List JValue) : JValue :=
  .obj [("data", .obj [("rooms", .arr rooms)])]

/-- Gregorian leap year, as `datetime` uses. -/
def isLeapYear (y : Nat) : Bool :=
  y % 4 == 0 && (y % 100 != 0 || y % 400 == 0)

/-- Length of month `m` (1-12) of year `y`. -/
def daysInMonth (y m : Nat) : Nat :=
  match m with
  | 2 => if isLeapYear y then 29 else 28
  | 4 | 6 | 9 | 11 => 30
  | _ => 31

/-- Days of year `y` strictly before month `m` (1-12). -/
def daysBeforeMonth (y m : Nat) : Nat :=
  let e : Nat := if isLeapYear y then 1 else 0
  match m with
  | 1 => 0
  | 2 => 31
  | 3 => 59 + e
  | 4 => 90 + e
  | 5 => 120 + e
  | 6 => 151 + e
  | 7 => 181 + e
  | 8 => 212 + e
  | 9 => 243 + e
  | 10 => 273 + e
  | 11 => 304 + e
  | _ => 334 + e

/-- Days in all years strictly before year `y` (proleptic Gregorian,
counted from year 1, as `datetime.toordinal` does). -/
def daysBeforeYear (y : Nat) : Nat :=
  365 * (y - 1) + (y - 1) / 4 - (y - 1) / 100 + (y - 1) / 400

/-- A calendar date as the `datetime` constructor receives it. -/
structure CalDate where
  year : Nat
  month : Nat
  day : Nat
deriving DecidableEq, Repr

/-- The ordinal day number of a date: `datetime(y, m, d).toordinal()`. -/
def toOrdinal (dt : CalDate) : Nat :=
  daysBeforeYear dt.year + daysBeforeMonth dt.year dt.month + dt.day

/-- The dates `datetime` accepts. -/
def validCalDate (dt : CalDate) : Bool :=
  decide (1 ≤ dt.year) && decide (dt.year ≤ 9999) &&
  decide (1 ≤ dt.month) && decide (dt.month ≤ 12) &&
  decide (1 ≤ dt.day) && decide (dt.day ≤ daysInMonth dt.year dt.month)

/-- The next calendar day, rolling over month and year boundaries. -/
def nextDay (dt : CalDate) : CalDate :=
  if dt.day < daysInMonth dt.year dt.month then ⟨dt.year, dt.month, dt.day + 1⟩
  else if dt.month < 12 then ⟨dt.year, dt.month + 1, 1⟩
  else ⟨dt.year + 1, 1, 1⟩

/-- Accumulate decimal digits; fails at the first non-digit. -/
def parseDigitsAux : List Char → Nat → Option Nat
  | [], acc => some acc
  | c :: rest, acc =>
    if c.isDigit then parseDigitsAux rest (acc * 10 + (c.toNat - 48)) else none

/-- Strip leading and trailing whitespace from a character list, as `int()`
does before parsing. -/
def pyStrip (cs : List Char) : List Char :=
  ((cs.dropWhile Char.isWhitespace).reverse.dropWhile Char.isWhitespace).reverse

/-- Python `int(s)` on a string: optional surrounding whitespace, an optional
sign, then one or more decimal digits. -/
def pyParseInt (s : String) : Option Int :=
  match pyStrip s.data with
  | [] => none
  | '-' :: rest =>
    match rest with
    | [] => none
    | _ => (parseDigitsAux rest 0).map fun n => -(n : Int)
  | '+' :: rest =>
    match rest with
    | [] => none
    | _ => (parseDigitsAux rest 0).map fun n => (n : Int)
  | cs => (parseDigitsAux cs 0).map fun n => (n : Int)

/-- `datetime(y, m, d)`: validates ranges in the order the constructor does
and yields the ordinal day number. -/
def mkDatetime (y m d : Int) : Except PyErr Nat :=
  if y < 1 ∨ 9999 < y then .error (.valueError .yearOutOfRange)
  else if m < 1 ∨ 12 < m then .error (.valueError .monthOutOfRange)
  else if d < 1 ∨ (daysInMonth y.toNat m.toNat : Int) < d then
    .error (.valueError .dayOutOfRange)
  else .ok (toOrdinal ⟨y.toNat, m.toNat, d.toNat⟩)

/-- The `{day, month, year}` string dictionaries `SearchParams` carries. -/
structure DateDict where
  day : String
  month : String
  year : String
deriving DecidableEq, Repr

/-- `int(component)` inside `_calculate_nights`: a parse failure raises the
underlying invalid-literal `ValueError`. -/
def pyIntOf (s : String) : Except PyErr Int :=
  match pyParseInt s with
  | some n => .ok n
  | none => .error (.valueError (.invalidLiteral s))

/-- `TravelokaScraper._calculate_nights`: converts the six string components
in source order (check-in year, month, day, then check-out year, month,
day), builds both `datetime`s and subtracts, yielding the day difference. -/
def calculateNights (check_in check_out : DateDict) : Except PyErr Int :=
  match pyIntOf check_in.year with
  | .error e => .error e
  | .ok y1 =>
    match pyIntOf check_in.month with
    | .error e => .error e
    | .ok m1 =>
      match pyIntOf check_in.day with
      | .error e => .error e
      | .ok d1 =>
        match mkDatetime y1 m1 d1 with
        | .error e => .error e
        | .ok ord_in =>
          match pyIntOf check_out.year with
          | .error e => .error e
          | .ok y2 =>
            match pyIntOf check_out.month with
            | .error e => .error e
            | .ok m2 =>
              match pyIntOf check_out.day with
              | .error e => .error e
              | .ok d2 =>
                match mkDatetime y2 m2 d2 with
                | .error e => .error e
                | .ok ord_out => .ok ((ord_out : Int) - (ord_in : Int))

/-- `SearchParams` from `app.py`. -/
structure SearchParams where
  hotel_id : String
  check_in_date : DateDict
  check_out_date : DateDict
  num_adults : Nat
  num_children : Nat := 0
  child_ages : List Nat := []
  num_infants : Nat := 0
  num_rooms : Nat := 1
  currency : String := "THB"
  language : String := "en"
  guest_nationality : String := "TH"
deriving DecidableEq, Repr

/-- The deterministic scalar fields of the payload `_build_request_payload`
assembles (the impure transaction id and timestamps are left out). -/
structure RequestPayload where
  hotelId : String
  checkInDate : DateDict
  checkOutDate : DateDict
  childAges : List Nat
  currency : String
  numAdults : Nat
  numChildren : Nat
  numOfNights : Int
  numRooms : Nat
deriving DecidableEq, Repr

/-- `TravelokaScraper._build_request_payload`: the only fallible step is the
`numOfNights` computation, whose exception propagates to the caller. -/
def buildRequestPayload (params : SearchParams) : Except PyErr RequestPayload :=
  match calculateNights params.check_in_date params.check_out_date with
  | .error e => .error e
  | .ok nights =>
    .ok {
      hotelId := params.hotel_id
      checkInDate := params.check_in_date
      checkOutDate := params.check_out_date
      childAges := params.child_ages
      currency := params.currency
      numAdults := params.num_adults
      numChildren := params.num_children
      numOfNights := nights
      numRooms := params.num_rooms }

namespace TravelokaConfig

/-- `TravelokaConfig.MAX_RETRIES`. -/
def MAX_RETRIES : Nat := 3

/-- `TravelokaConfig.REQUEST_DELAY`, in seconds. -/
def REQUEST_DELAY : ℚ := 3

/-- `TravelokaConfig.RETRY_DELAY`, in seconds. -/
def RETRY_DELAY : ℚ := 5

end TravelokaConfig

/-- One network outcome for one attempted POST: either an HTTP response with
a status code and the result of `response.json()` (`none` when the body
does not parse), or a network-level failure (timeout, connection error,
proxy error), all of which the source handles alike. -/
inductive HttpResp where
  | status (code : Nat) (body : Option JValue)
  | netError

/-- The response classification of one loop iteration of `_make_request`:
`some r` means the function returns `r` now, `none` means it sleeps and
retries.  200/202 return the parsed body, or `{"success": True}` when the
body does not parse; 429 and 407 retry; 400/403/404/405 return `None`
immediately; any other status retries. -/
def attemptStep (r : HttpResp) : Option (Option JValue) :=
  match r with
  | .netError => none
  | .status code body =>
    if code = 200 ∨ code = 202 then
      some (some (match body with
        | some j => j
        | none => .obj [("success", .bool true)]))
    else if code = 429 then none
    else if code = 407 then none
    else if code = 400 ∨ code = 403 ∨ code = 404 ∨ code = 405 then some none
    else none

/-- The retry loop of `_make_request` with `fuel` attempts remaining:
attempt number `attempt` consumes outcome `env attempt`; the second
component counts the requests actually issued. -/
def makeRequestAux (env : Nat → HttpResp) (attempt : Nat) : Nat → Option JValue × Nat
  | 0 => (none, 0)
  | fuel + 1 =>
    match attemptStep (env attempt) with
    | some res => (res, 1)
    | none =>
      let rest := makeRequestAux env (attempt + 1) fuel
      (rest.1, rest.2 + 1)

/-- `TravelokaScraper._make_request` against the network behaviour `env`:
the returned value (`none` models Python `None`) and the number of
requests issued. -/
def makeRequest (env : Nat → HttpResp) : Option JValue × Nat :=
  makeRequestAux env 0 TravelokaConfig.MAX_RETRIES

/-- `str.zfill(width)` for the digit strings used in the deep link. -/
def zfill (s : String) (width : Nat) : String :=
  if width ≤ s.length then s
  else String.mk (List.replicate (width - s.length) '0') ++ s

/-- `urllib.parse.quote_plus` on one character: keep unreserved characters,
turn a space into a plus, percent-encode the rest (ASCII). -/
def quotePlusChar (c : Char) : String :=
  if c.isAlphanum ∨ c = '_' ∨ c = '.' ∨ c = '-' ∨ c = '~' then String.singleton c
  else if c = ' ' then "+"
  else
    let n := c.toNat
    let hex := fun (k : Nat) => String.singleton (Nat.digitChar k)
    "%" ++ (hex (n / 16)).toUpper ++ (hex (n % 16)).toUpper

/-- `quote_plus` on a string. -/
def quotePlus (s : String) : String :=
  String.join (s.data.map quotePlusChar)

/-- `urllib.parse.urlencode`: ampersand-joined `key=value` pairs. -/
def urlencode (pairs : List (String × String)) : String :=
  String.intercalate "&" (pairs.map fun kv => quotePlus kv.1 ++ "=" ++ quotePlus kv.2)

/-- `TravelokaScraper._generate_deep_link`. -/
def generateDeepLink (params : SearchParams) : String :=
  let check_in_str :=
    params.check_in_date.year ++ zfill params.check_in_date.month 2 ++
      zfill params.check_in_date.day 2
  let check_out_str :=
    params.check_out_date.year ++ zfill params.check_out_date.month 2 ++
      zfill params.check_out_date.day 2
  let query_string := urlencode
    [("hotelId", params.hotel_id),
     ("checkIn", check_in_str),
     ("checkOut", check_out_str),
     ("room", toString params.num_rooms),
     ("adult", toString params.num_adults),
     ("child", toString params.num_children),
     ("currency", params.currency)]
  "https://www.traveloka.com/en/hotel/search?" ++ query_string

/-- A `{day, month, year}` dictionary as a JSON value, for the echoed
metadata in the result envelope. -/
def dateDictJ (d : DateDict) : JValue :=
  .obj [("day", .str d.day), ("month", .str d.month), ("year", .str d.year)]

/-- The failure envelope `scrape` returns when `_make_request` yields no
usable data (`app.py` lines 564-573). -/
def failEnvelope (params : SearchParams) (hotel_name : String) : JObj :=
  [("success", .bool false),
   ("error", .str "Failed to retrieve data from Traveloka API"),
   ("hotel_id", .str params.hotel_id),
   ("hotel_name", .str hotel_name),
   ("check_in", dateDictJ params.check_in_date),
   ("check_out", dateDictJ params.check_out_date),
   ("rates", .arr []),
   ("deep_link", .str (generateDeepLink params))]

/-- The success envelope `scrape` returns (`app.py` lines 581-594); the
wall-clock timestamp is passed in. -/
def successEnvelope (params : SearchParams) (hotel_name : String)
    (rates : List JObj) (timestamp : String) : JObj :=
  [("success", .bool true),
   ("hotel_id", .str params.hotel_id),
   ("hotel_name", .str hotel_name),
   ("check_in", dateDictJ params.check_in_date),
   ("check_out", dateDictJ params.check_out_date),
   ("num_adults", .num params.num_adults),
   ("num_children", .num params.num_children),
   ("num_rooms", .num params.num_rooms),
   ("currency", .str params.currency),
   ("deep_link", .str (generateDeepLink params)),
   ("timestamp", .str timestamp),
   ("rates", .arr (rates.map .obj))]

/-- `TravelokaScraper.scrape`: build the payload (date errors propagate),
issue the request against `env`, branch on `if not response_data:` (Python
falsiness covers both `None` and a falsy parsed body) and assemble the
envelope. -/
def scrape (params : SearchParams) (hotel_name : String) (env : Nat → HttpResp)
    (timestamp : String) : Except PyErr JObj :=
  match buildRequestPayload params with
  | .error e => .error e
  | .ok _payload =>
    let response_data := (makeRequest env).1
    let truthy :=
      match response_data with
      | none => false
      | some v => pyTruthy v
    if truthy = false then .ok (failEnvelope params hotel_name)
    else
      let rates :=
        match response_data with
        | some v => (extractRates v).records
        | none => []
      .ok (successEnvelope params hotel_name rates timestamp)

/-- The clock-relevant state of the scraper: the current reading of the
client clock and `self.last_request_time` (initially 0). -/
structure ClockState where
  now : ℚ
  last_request_time : ℚ
deriving DecidableEq, Repr

/-- `TravelokaScraper._respect_rate_limit`: sleep exactly the remaining part
of the delay window when the last request finished less than
`REQUEST_DELAY` seconds ago. -/
def respectRateLimit (st : ClockState) : ClockState :=
  let elapsed := st.now - st.last_request_time
  if elapsed < TravelokaConfig.REQUEST_DELAY then
    { st with now := st.now + (TravelokaConfig.REQUEST_DELAY - elapsed) }
  else st

/-- The timing skeleton of a `_make_request` call whose first attempt gets a
response after `dur` seconds: rate-limit wait, send, completion, and the
update of `last_request_time` (`app.py` lines 321-340).  Returns the new
state and the instant the request was sent. -/
def timedRequest (st : ClockState) (dur : ℚ) : ClockState × ℚ :=
  let st1 := respectRateLimit st
  let send := st1.now
  let complete := send + dur
  ({ now := complete, last_request_time := complete }, send)

lemma jlookup_append (a b : JObj) (k : String) :
    jlookup (a ++ b) k =
      (match jlookup a k with
       | some v => some v
       | none => jlookup b k) := by
  induction a with
  | nil => simp [jlookup]
  | cons kv rest ih =>
    obtain ⟨k', v⟩ := kv
    by_cases h : k' = k <;> simp [jlookup, h, ih]

lemma validateRate_mkRecord (rn : JValue) (p : NormParts) :
    validateRate (mkRecord rn p) = true := by
  unfold mkRecord validateRate keyIn
  rcases hd : p.discount with _ | ⟨dp, op⟩ <;>
    rcases ht : pyTruthy p.shown_price_per_night <;>
      simp [jlookup_append, jlookup]

/-- C9: every record `_normalize_rate` returns (any non-`None` result, for
any room name and rate dictionary) passes
`TravelokaDataValidator.validate_rate`: all nine required fields are
present. -/
theorem normalize_rate_satisfies_validator (room_name rate_data : JValue) (r : JObj)
    (h : normalizeRate room_name rate_data = some r) : validateRate r = true := by
  unfold normalizeRate at h
  cases hp : runParts rate_data with
  | error e => rw [hp] at h; exact absurd h (by simp)
  | ok p =>
    rw [hp] at h
    injection h with h
    subst h
    exact validateRate_mkRecord _ _

/-- Witness for C9 at the empty rate dictionary. -/
theorem normalize_rate_satisfies_validator_witness :
    normalizeRate (.str "Deluxe") (.obj []) = some
      [("room_name", .str "Deluxe"), ("rate_name", .str ""),
       ("number_of_guests", .num 0), ("cancellation_policy", .str "Not specified"),
       ("breakfast", .str "Not included"), ("currency", .str "THB"),
       ("total_taxes", .num 0), ("price", .num 0), ("total_price", .num 0)] ∧
    validateRate
      [("room_name", .str "Deluxe"), ("rate_name", .str ""),
       ("number_of_guests", .num 0), ("cancellation_policy", .str "Not specified"),
       ("breakfast", .str "Not included"), ("currency", .str "THB"),
       ("total_taxes", .num 0), ("price", .num 0), ("total_price", .num 0)] = true :=
  ⟨rfl, normalize_rate_satisfies_validator (.str "Deluxe") (.obj []) _ rfl⟩

/-- C4: when the first HTTP response has status 404 (likewise 400, 403 or
405), `_make_request` issues exactly one request — the remaining retry
attempts are not consumed — and returns `None`. -/
theorem make_request_permanent_error (env : Nat → HttpResp) (c : Nat) (body : Option JValue)
    (hc : c = 400 ∨ c = 403 ∨ c = 404 ∨ c = 405) (h0 : env 0 = .status c body) :
    makeRequest env = (none, 1) := by
  have hstep : attemptStep (env 0) = some none := by
    rw [h0]
    rcases hc with h | h | h | h <;> subst h <;> rfl
  simp [makeRequest, TravelokaConfig.MAX_RETRIES, makeRequestAux, hstep]

/-- Witness for C4: a network that answers 404 to everything. -/
theorem make_request_permanent_error_witness :
    ((404 = 400 ∨ 404 = 403 ∨ 404 = 404 ∨ 404 = 405) ∧
      (fun _ : Nat => HttpResp.status 404 none) 0 = HttpResp.status 404 none) ∧
    makeRequest (fun _ => .status 404 none) = (none, 1) :=
  ⟨⟨by decide, rfl⟩,
    make_request_permanent_error (fun _ => .status 404 none) 404 none (by decide) rfl⟩

/-- C8: for two sequential requests with no other activity (the client may
idle for `idle ≥ 0` seconds in between), the second request is sent at
least `REQUEST_DELAY` seconds after the first one completed, and hence at
least `REQUEST_DELAY` seconds after the first one was sent. -/
theorem rate_limit_spacing (st : ClockState) (d1 d2 idle : ℚ)
    (h1 : 0 ≤ d1) (_h2 : 0 ≤ idle) :
    TravelokaConfig.REQUEST_DELAY ≤
        (timedRequest ⟨(timedRequest st d1).1.now + idle,
          (timedRequest st d1).1.last_request_time⟩ d2).2 -
        (timedRequest st d1).1.last_request_time ∧
    TravelokaConfig.REQUEST_DELAY ≤
        (timedRequest ⟨(timedRequest st d1).1.now + idle,
          (timedRequest st d1).1.last_request_time⟩ d2).2 -
        (timedRequest st d1).2 := by
  simp only [timedRequest, respectRateLimit, TravelokaConfig.REQUEST_DELAY]
  split_ifs <;> constructor <;> simp_all <;> linarith

/-- Witness for C8: first request at clock 0 taking 1 second, immediately
followed by a second request. -/
theorem rate_limit_spacing_witness :
    ((0 : ℚ) ≤ 1 ∧ (0 : ℚ) ≤ 0) ∧
    (TravelokaConfig.REQUEST_DELAY ≤
        (timedRequest ⟨(timedRequest ⟨0, 0⟩ 1).1.now + 0,
          (timedRequest ⟨0, 0⟩ 1).1.last_request_time⟩ 2).2 -
        (timedRequest ⟨0, 0⟩ 1).1.last_request_time ∧
      TravelokaConfig.REQUEST_DELAY ≤
        (timedRequest ⟨(timedRequest ⟨0, 0⟩ 1).1.now + 0,
          (timedRequest ⟨0, 0⟩ 1).1.last_request_time⟩ 2).2 -
        (timedRequest ⟨0, 0⟩ 1).2) :=
  ⟨⟨by norm_num, le_refl 0⟩, rate_limit_spacing ⟨0, 0⟩ 1 2 0 (by norm_num) (le_refl 0)⟩

/-- C6: whenever the transport layer yields no data (`_make_request` returns
`None`, whether by exhausted retries or a permanent error), `scrape`
returns the fixed failure envelope: success `false`, an error description,
the echoed request metadata, an empty rate list and the deep link; it
passes `validate_result`, so the caller never sees a missing or partial
envelope. -/
theorem scrape_failure_envelope (params : SearchParams) (hotel_name : String)
    (env : Nat → HttpResp) (ts : String) (pl : RequestPayload)
    (hbuild : buildRequestPayload params = .ok pl)
    (hfail : (makeRequest env).1 = none) :
    scrape params hotel_name env ts = .ok (failEnvelope params hotel_name) ∧
    validateResult (failEnvelope params hotel_name) = true ∧
    jlookup (failEnvelope params hotel_name) "success" = some (.bool false) ∧
    jlookup (failEnvelope params hotel_name) "error" =
      some (.str "Failed to retrieve data from Traveloka API") ∧
    jlookup (failEnvelope params hotel_name) "hotel_id" = some (.str params.hotel_id) ∧
    jlookup (failEnvelope params hotel_name) "hotel_name" = some (.str hotel_name) ∧
    jlookup (failEnvelope params hotel_name) "check_in" =
      some (dateDictJ params.check_in_date) ∧
    jlookup (failEnvelope params hotel_name) "check_out" =
      some (dateDictJ params.check_out_date) ∧
    jlookup (failEnvelope params hotel_name) "rates" = some (.arr []) ∧
    jlookup (failEnvelope params hotel_name) "deep_link" =
      some (.str (generateDeepLink params)) := by
  refine ⟨?_, ?_, ?_, ?_, ?_, ?_, ?_, ?_, ?_, ?_⟩
  · simp [scrape, hbuild, hfail]
  all_goals simp [validateResult, keyIn, failEnvelope, jlookup]

/-- Witness for C6: valid dates, a network that always times out. -/
theorem scrape_failure_envelope_witness :
    (buildRequestPayload
        ⟨"H1", ⟨"15", "12", "2025"⟩, ⟨"16", "12", "2025"⟩, 2, 0, [], 0, 1, "THB", "en", "TH"⟩ =
      .ok ⟨"H1", ⟨"15", "12", "2025"⟩, ⟨"16", "12", "2025"⟩, [], "THB", 2, 0, 1, 1⟩ ∧
      (makeRequest fun _ => .netError).1 = none) ∧
    scrape ⟨"H1", ⟨"15", "12", "2025"⟩, ⟨"16", "12", "2025"⟩, 2, 0, [], 0, 1, "THB", "en", "TH"⟩
        "Hotel One" (fun _ => .netError) "2025-12-01T00:00:00" =
      .ok (failEnvelope
        ⟨"H1", ⟨"15", "12", "2025"⟩, ⟨"16", "12", "2025"⟩, 2, 0, [], 0, 1, "THB", "en", "TH"⟩
        "Hotel One") :=
  ⟨⟨by rfl, by rfl⟩,
    (scrape_failure_envelope
      ⟨"H1", ⟨"15", "12", "2025"⟩, ⟨"16", "12", "2025"⟩, 2, 0, [], 0, 1, "THB", "en", "TH"⟩
      "Hotel One" (fun _ => .netError) "2025-12-01T00:00:00"
      ⟨"H1", ⟨"15", "12", "2025"⟩, ⟨"16", "12", "2025"⟩, [], "THB", 2, 0, 1, 1⟩
      (by rfl) (by rfl)).1⟩

/-- C10: a 200 response whose body parses to any falsy JSON value (for
example the empty object `{}`) makes `scrape` return the failure envelope
(success `false`) even though the transport call succeeded, whereas a 200
or a 202 response whose body fails to parse as JSON yields the success
envelope with an empty rate list. -/
theorem scrape_falsy_body_vs_unparsable_body (params : SearchParams)
    (hotel_name ts : String) (env1 env2 : Nat → HttpResp) (pl : RequestPayload)
    (v : JValue) (c : Nat)
    (hbuild : buildRequestPayload params = .ok pl)
    (h1 : env1 0 = .status 200 (some v))
    (hfalsy : pyTruthy v = false)
    (hc : c = 200 ∨ c = 202)
    (h2 : env2 0 = .status c none) :
    scrape params hotel_name env1 ts = .ok (failEnvelope params hotel_name) ∧
    jlookup (failEnvelope params hotel_name) "success" = some (.bool false) ∧
    scrape params hotel_name env2 ts = .ok (successEnvelope params hotel_name [] ts) ∧
    jlookup (successEnvelope params hotel_name [] ts) "success" = some (.bool true) ∧
    jlookup (successEnvelope params hotel_name [] ts) "rates" = some (.arr []) := by
  have hm1 : makeRequest env1 = (some v, 1) := by
    simp [makeRequest, TravelokaConfig.MAX_RETRIES, makeRequestAux, attemptStep, h1]
  have hm2 : makeRequest env2 = (some (.obj [("success", .bool true)]), 1) := by
    rcases hc with rfl | rfl <;>
      simp [makeRequest, TravelokaConfig.MAX_RETRIES, makeRequestAux, attemptStep, h2]
  refine ⟨?_, ?_, ?_, ?_, ?_⟩
  · simp [scrape, hbuild, hm1, hfalsy]
  · simp [failEnvelope, jlookup]
  · simp [scrape, hbuild, hm2, pyTruthy, extractRates, dictGet, objGet, jlookup,
      pyIter, processRooms]
  · simp [successEnvelope, jlookup]
  · simp [successEnvelope, jlookup]

/-- Witness for C10 at concrete search parameters: a falsy `{}` body on a
200, and an unparsable body on a 202. -/
theorem scrape_falsy_body_vs_unparsable_body_witness :
    (buildRequestPayload
        ⟨"H1", ⟨"15", "12", "2025"⟩, ⟨"16", "12", "2025"⟩, 2, 0, [], 0, 1, "THB", "en", "TH"⟩ =
      .ok ⟨"H1", ⟨"15", "12", "2025"⟩, ⟨"16", "12", "2025"⟩, [], "THB", 2, 0, 1, 1⟩ ∧
      (fun _ : Nat => HttpResp.status 200 (some (.obj []))) 0 =
        HttpResp.status 200 (some (.obj [])) ∧
      pyTruthy (.obj []) = false ∧
      (202 = 200 ∨ 202 = 202) ∧
      (fun _ : Nat => HttpResp.status 202 none) 0 = HttpResp.status 202 none) ∧
    scrape ⟨"H1", ⟨"15", "12", "2025"⟩, ⟨"16", "12", "2025"⟩, 2, 0, [], 0, 1, "THB", "en", "TH"⟩
        "" (fun _ => .status 200 (some (.obj []))) "t" =
      .ok (failEnvelope
        ⟨"H1", ⟨"15", "12", "2025"⟩, ⟨"16", "12", "2025"⟩, 2, 0, [], 0, 1, "THB", "en", "TH"⟩ "") ∧
    scrape ⟨"H1", ⟨"15", "12", "2025"⟩, ⟨"16", "12", "2025"⟩, 2, 0, [], 0, 1, "THB", "en", "TH"⟩
        "" (fun _ => .status 202 none) "t" =
      .ok (successEnvelope
        ⟨"H1", ⟨"15", "12", "2025"⟩, ⟨"16", "12", "2025"⟩, 2, 0, [], 0, 1, "THB", "en", "TH"⟩
        "" [] "t") :=
  ⟨⟨by rfl, rfl, rfl, by decide, rfl⟩,
    (scrape_falsy_body_vs_unparsable_body
      ⟨"H1", ⟨"15", "12", "2025"⟩, ⟨"16", "12", "2025"⟩, 2, 0, [], 0, 1, "THB", "en", "TH"⟩
      "" "t" (fun _ => .status 200 (some (.obj []))) (fun _ => .status 202 none)
      ⟨"H1", ⟨"15", "12", "2025"⟩, ⟨"16", "12", "2025"⟩, [], "THB", 2, 0, 1, 1⟩
      (.obj []) 202 (by rfl) rfl rfl (by decide) rfl).1,
    (scrape_falsy_body_vs_unparsable_body
      ⟨"H1", ⟨"15", "12", "2025"⟩, ⟨"16", "12", "2025"⟩, 2, 0, [], 0, 1, "THB", "en", "TH"⟩
      "" "t" (fun _ => .status 200 (some (.obj []))) (fun _ => .status 202 none)
      ⟨"H1", ⟨"15", "12", "2025"⟩, ⟨"16", "12", "2025"⟩, [], "THB", 2, 0, 1, 1⟩
      (.obj []) 202 (by rfl) rfl rfl (by decide) rfl).2.2.1⟩

/-- Modelled from the spec: the "clear invalid date error" of section 4.1 is
a dedicated error that explicitly signals an invalid date, as opposed to
the parse exception of the underlying conversion (`int()`'s
invalid-literal `ValueError`). -/
def specClearInvalidDateError : PyErr → Bool
  | .valueError .invalidDate => true
  | _ => false

/-- C7 counterexample: with a malformed check-in year string, building the
payload fails with the underlying conversion's invalid-literal parse
error, not with a clear invalid-date error. -/
theorem build_payload_cryptic_parse_error :
    buildRequestPayload
        ⟨"H1", ⟨"15", "12", "20x5"⟩, ⟨"16", "12", "2025"⟩, 2, 0, [], 0, 1, "THB", "en", "TH"⟩ =
      .error (.valueError (.invalidLiteral "20x5")) ∧
    specClearInvalidDateError (.valueError (.invalidLiteral "20x5")) = false :=
  ⟨rfl, rfl⟩

lemma pyIntOf_error (s : String) (e : PyErr) (h : pyIntOf s = .error e) :
    e = .valueError (.invalidLiteral s) ∧ pyParseInt s = none := by
  unfold pyIntOf at h
  cases hp : pyParseInt s <;> rw [hp] at h <;> simp_all

lemma pyIntOf_ok (s : String) (n : Int) (h : pyIntOf s = .ok n) :
    pyParseInt s = some n := by
  unfold pyIntOf at h
  cases hp : pyParseInt s <;> rw [hp] at h <;> simp_all

lemma mkDatetime_error (y m d : Int) (e : PyErr) (h : mkDatetime y m d = .error e) :
    e = .valueError .yearOutOfRange ∨ e = .valueError .monthOutOfRange ∨
    e = .valueError .dayOutOfRange := by
  unfold mkDatetime at h
  split_ifs at h <;> simp_all

/-- C7 (amended): malformed date components make `_build_request_payload`
propagate the underlying conversion's `ValueError` unchanged — `int()`'s
invalid-literal error naming the offending component string, or
`datetime`'s range error for a non-real calendar date — never a dedicated
clear invalid-date error.  The first conjunct: every failure of the date
conversion surfaces from the payload build with exactly that error.  The
second conjunct: the conversion succeeds only when all six components
parse and both triples are real `datetime` dates, so every malformed
input does fail. -/
theorem build_payload_parse_error_propagates (params : SearchParams) :
    (∀ e, calculateNights params.check_in_date params.check_out_date = .error e →
      buildRequestPayload params = .error e ∧
      specClearInvalidDateError e = false ∧
      ((∃ s, e = .valueError (.invalidLiteral s) ∧ pyParseInt s = none ∧
          (s = params.check_in_date.year ∨ s = params.check_in_date.month ∨
           s = params.check_in_date.day ∨ s = params.check_out_date.year ∨
           s = params.check_out_date.month ∨ s = params.check_out_date.day)) ∨
        e = .valueError .yearOutOfRange ∨ e = .valueError .monthOutOfRange ∨
        e = .valueError .dayOutOfRange)) ∧
    (∀ n, calculateNights params.check_in_date params.check_out_date = .ok n →
      ∃ y1 m1 d1 o1 y2 m2 d2 o2,
        pyParseInt params.check_in_date.year = some y1 ∧
        pyParseInt params.check_in_date.month = some m1 ∧
        pyParseInt params.check_in_date.day = some d1 ∧
        mkDatetime y1 m1 d1 = .ok o1 ∧
        pyParseInt params.check_out_date.year = some y2 ∧
        pyParseInt params.check_out_date.month = some m2 ∧
        pyParseInt params.check_out_date.day = some d2 ∧
        mkDatetime y2 m2 d2 = .ok o2) := by
  constructor
  · intro e h
    refine ⟨by simp [buildRequestPayload, h], ?_, ?_⟩ <;>
    · unfold calculateNights at h
      cases hy1 : pyIntOf params.check_in_date.year with
      | error e1 =>
        obtain ⟨he1, hp1⟩ := pyIntOf_error _ _ hy1
        subst he1
        simp only [hy1] at h
        injection h with h
        subst h
        first
          | rfl
          | exact Or.inl ⟨_, rfl, hp1, by simp⟩
      | ok y1 =>
      simp only [hy1] at h
      cases hm1 : pyIntOf params.check_in_date.month with
      | error e1 =>
        obtain ⟨he1, hp1⟩ := pyIntOf_error _ _ hm1
        subst he1
        simp only [hm1] at h
        injection h with h
        subst h
        first
          | rfl
          | exact Or.inl ⟨_, rfl, hp1, by simp⟩
      | ok m1 =>
      simp only [hm1] at h
      cases hd1 : pyIntOf params.check_in_date.day with
      | error e1 =>
        obtain ⟨he1, hp1⟩ := pyIntOf_error _ _ hd1
        subst he1
        simp only [hd1] at h
        injection h with h
        subst h
        first
          | rfl
          | exact Or.inl ⟨_, rfl, hp1, by simp⟩
      | ok d1 =>
      simp only [hd1] at h
      cases hdt1 : mkDatetime y1 m1 d1 with
      | error e1 =>
        have hk := mkDatetime_error _ _ _ _ hdt1
        rcases hk with rfl | rfl | rfl <;>
        · simp only [hdt1] at h
          injection h with h
          subst h
          first
            | rfl
            | exact Or.inr (by simp)
      | ok o1 =>
      simp only [hdt1] at h
      cases hy2 : pyIntOf params.check_out_date.year with
      | error e1 =>
        obtain ⟨he1, hp1⟩ := pyIntOf_error _ _ hy2
        subst he1
        simp only [hy2] at h
        injection h with h
        subst h
        first
          | rfl
          | exact Or.inl ⟨_, rfl, hp1, by simp⟩
      | ok y2 =>
      simp only [hy2] at h
      cases hm2 : pyIntOf params.check_out_date.month with
      | error e1 =>
        obtain ⟨he1, hp1⟩ := pyIntOf_error _ _ hm2
        subst he1
        simp only [hm2] at h
        injection h with h
        subst h
        first
          | rfl
          | exact Or.inl ⟨_, rfl, hp1, by simp⟩
      | ok m2 =>
      simp only [hm2] at h
      cases hd2 : pyIntOf params.check_out_date.day with
      | error e1 =>
        obtain ⟨he1, hp1⟩ := pyIntOf_error _ _ hd2
        subst he1
        simp only [hd2] at h
        injection h with h
        subst h
        first
          | rfl
          | exact Or.inl ⟨_, rfl, hp1, by simp⟩
      | ok d2 =>
      simp only [hd2] at h
      cases hdt2 : mkDatetime y2 m2 d2 with
      | error e1 =>
        have hk := mkDatetime_error _ _ _ _ hdt2
        rcases hk with rfl | rfl | rfl <;>
        · simp only [hdt2] at h
          injection h with h
          subst h
          first
            | rfl
            | exact Or.inr (by simp)
      | ok o2 =>
      simp only [hdt2] at h
      exact absurd h (by simp)
  · intro n h
    unfold calculateNights at h
    cases hy1 : pyIntOf params.check_in_date.year with
    | error e1 => simp only [hy1] at h; exact absurd h (by simp)
    | ok y1 =>
    simp only [hy1] at h
    cases hm1 : pyIntOf params.check_in_date.month with
    | error e1 => simp only [hm1] at h; exact absurd h (by simp)
    | ok m1 =>
    simp only [hm1] at h
    cases hd1 : pyIntOf params.check_in_date.day with
    | error e1 => simp only [hd1] at h; exact absurd h (by simp)
    | ok d1 =>
    simp only [hd1] at h
    cases hdt1 : mkDatetime y1 m1 d1 with
    | error e1 => simp only [hdt1] at h; exact absurd h (by simp)
    | ok o1 =>
    simp only [hdt1] at h
    cases hy2 : pyIntOf params.check_out_date.year with
    | error e1 => simp only [hy2] at h; exact absurd h (by simp)
    | ok y2 =>
    simp only [hy2] at h
    cases hm2 : pyIntOf params.check_out_date.month with
    | error e1 => simp only [hm2] at h; exact absurd h (by simp)
    | ok m2 =>
    simp only [hm2] at h
    cases hd2 : pyIntOf params.check_out_date.day with
    | error e1 => simp only [hd2] at h; exact absurd h (by simp)
    | ok d2 =>
    simp only [hd2] at h
    cases hdt2 : mkDatetime y2 m2 d2 with
    | error e1 => simp only [hdt2] at h; exact absurd h (by simp)
    | ok o2 =>
    exact ⟨y1, m1, d1, o1, y2, m2, d2, o2,
      pyIntOf_ok _ _ hy1, pyIntOf_ok _ _ hm1, pyIntOf_ok _ _ hd1, hdt1,
      pyIntOf_ok _ _ hy2, pyIntOf_ok _ _ hm2, pyIntOf_ok _ _ hd2, hdt2⟩

/-- Witness for the amended C7, at an unparseable year string and at a
non-real calendar date (February 30). -/
theorem build_payload_parse_error_propagates_witness :
    (calculateNights ⟨"15", "12", "20x5"⟩ ⟨"16", "12", "2025"⟩ =
        .error (.valueError (.invalidLiteral "20x5")) ∧
      calculateNights ⟨"30", "2", "2025"⟩ ⟨"16", "12", "2025"⟩ =
        .error (.valueError .dayOutOfRange)) ∧
    (buildRequestPayload
        ⟨"H1", ⟨"15", "12", "20x5"⟩, ⟨"16", "12", "2025"⟩, 2, 0, [], 0, 1, "THB", "en", "TH"⟩ =
        .error (.valueError (.invalidLiteral "20x5")) ∧
      specClearInvalidDateError (.valueError (.invalidLiteral "20x5")) = false) ∧
    (buildRequestPayload
        ⟨"H1", ⟨"30", "2", "2025"⟩, ⟨"16", "12", "2025"⟩, 2, 0, [], 0, 1, "THB", "en", "TH"⟩ =
        .error (.valueError .dayOutOfRange) ∧
      specClearInvalidDateError (.valueError .dayOutOfRange) = false) :=
  ⟨⟨by rfl, by rfl⟩,
    ⟨((build_payload_parse_error_propagates
        ⟨"H1", ⟨"15", "12", "20x5"⟩, ⟨"16", "12", "2025"⟩, 2, 0, [], 0, 1, "THB", "en", "TH"⟩).1
        (.valueError (.invalidLiteral "20x5")) (by rfl)).1,
      ((build_payload_parse_error_propagates
        ⟨"H1", ⟨"15", "12", "20x5"⟩, ⟨"16", "12", "2025"⟩, 2, 0, [], 0, 1, "THB", "en", "TH"⟩).1
        (.valueError (.invalidLiteral "20x5")) (by rfl)).2.1⟩,
    ⟨((build_payload_parse_error_propagates
        ⟨"H1", ⟨"30", "2", "2025"⟩, ⟨"16", "12", "2025"⟩, 2, 0, [], 0, 1, "THB", "en", "TH"⟩).1
        (.valueError .dayOutOfRange) (by rfl)).1,
      ((build_payload_parse_error_propagates
        ⟨"H1", ⟨"30", "2", "2025"⟩, ⟨"16", "12", "2025"⟩, 2, 0, [], 0, 1, "THB", "en", "TH"⟩).1
        (.valueError .dayOutOfRange) (by rfl)).2.1⟩⟩


set_option maxHeartbeats 1000000 in
lemma daysBeforeMonth_succ (y m : Nat) (h1 : 1 ≤ m) (h2 : m ≤ 11) :
    daysBeforeMonth y (m + 1) = daysBeforeMonth y m + daysInMonth y m := by
  cases hl : isLeapYear y <;> interval_cases m <;>
    simp [daysBeforeMonth, daysInMonth, hl]

set_option maxHeartbeats 1000000 in
lemma daysBeforeYear_succ (y : Nat) (h : 1 ≤ y) :
    daysBeforeYear (y + 1) =
      daysBeforeYear y + 365 + (if isLeapYear y then 1 else 0) := by
  unfold daysBeforeYear isLeapYear
  split <;> rename_i hl
  · simp only [Bool.and_eq_true, beq_iff_eq, Bool.or_eq_true, bne_iff_ne] at hl
    omega
  · simp only [Bool.and_eq_true, beq_iff_eq, Bool.or_eq_true, bne_iff_ne] at hl
    push_neg at hl
    omega

lemma toOrdinal_nextDay (dt : CalDate) (h : validCalDate dt = true) :
    toOrdinal (nextDay dt) = toOrdinal dt + 1 := by
  simp only [validCalDate, Bool.and_eq_true, decide_eq_true_eq] at h
  obtain ⟨⟨⟨⟨⟨hy1, hy2⟩, hm1⟩, hm2⟩, hd1⟩, hd2⟩ := h
  unfold nextDay
  split <;> rename_i hlt
  · simp [toOrdinal]
    omega
  · split <;> rename_i hm
    · have h11 : dt.month ≤ 11 := by omega
      have hd : dt.day = daysInMonth dt.year dt.month := by omega
      have hsucc := daysBeforeMonth_succ dt.year dt.month hm1 h11
      simp [toOrdinal, hsucc]
      omega
    · have hm12 : dt.month = 12 := by omega
      have h31 : daysInMonth dt.year 12 = 31 := by simp [daysInMonth]
      have hd31 : dt.day = 31 := by
        rw [hm12] at hd2 hlt
        omega
      have hdbm1 : daysBeforeMonth (dt.year + 1) 1 = 0 := by simp [daysBeforeMonth]
      have hdbm12 : daysBeforeMonth dt.year 12 =
          334 + (if isLeapYear dt.year then 1 else 0) := by simp [daysBeforeMonth]
      cases hl : isLeapYear dt.year <;>
        simp [toOrdinal, hm12, hd31, hdbm1, hdbm12,
          daysBeforeYear_succ dt.year hy1, hl]

lemma toOrdinal_iterate (start : CalDate) (k : Nat)
    (hv : ∀ j, j < k → validCalDate (nextDay^[j] start) = true) :
    toOrdinal (nextDay^[k] start) = toOrdinal start + k := by
  induction k with
  | zero => simp
  | succ n ih =>
    rw [Function.iterate_succ_apply']
    rw [toOrdinal_nextDay _ (hv n (by omega))]
    rw [ih fun j hj => hv j (by omega)]
    omega

lemma mkDatetime_valid (dt : CalDate) (h : validCalDate dt = true) :
    mkDatetime dt.year dt.month dt.day = .ok (toOrdinal dt) := by
  simp only [validCalDate, Bool.and_eq_true, decide_eq_true_eq] at h
  obtain ⟨⟨⟨⟨⟨hy1, hy2⟩, hm1⟩, hm2⟩, hd1⟩, hd2⟩ := h
  unfold mkDatetime
  rw [if_neg (by omega), if_neg (by omega)]
  simp only [Int.toNat_natCast]
  rw [if_neg (by omega)]

/-- C5 (amended): `_calculate_nights` returns the exact calendar-day
difference between the two dates: stepping the check-in date forward `k`
calendar days — correctly across month and year boundaries — gives a
check-out date for which it returns exactly `k`.  The "nights ≥ 1 for any
accepted request" part of the claim fails on the code: see
`pipeline_accepts_zero_nights`. -/
theorem calculate_nights_day_difference (ci co : DateDict) (start : CalDate) (k : Nat)
    (hy : pyParseInt ci.year = some (start.year : Int))
    (hm : pyParseInt ci.month = some (start.month : Int))
    (hd : pyParseInt ci.day = some (start.day : Int))
    (hy2 : pyParseInt co.year = some ((nextDay^[k] start).year : Int))
    (hm2 : pyParseInt co.month = some ((nextDay^[k] start).month : Int))
    (hd2 : pyParseInt co.day = some ((nextDay^[k] start).day : Int))
    (hv : ∀ j, j ≤ k → validCalDate (nextDay^[j] start) = true) :
    calculateNights ci co = .ok (k : Int) := by
  have hstart : validCalDate start = true := by
    have h0 := hv 0 (by omega)
    simpa using h0
  have hend : validCalDate (nextDay^[k] start) = true := hv k (le_refl k)
  simp only [calculateNights, pyIntOf, hy, hm, hd, hy2, hm2, hd2,
    mkDatetime_valid start hstart, mkDatetime_valid _ hend]
  rw [toOrdinal_iterate start k fun j hj => hv j (by omega)]
  push_cast
  ring_nf

/-- Witness for C5: December 31, 2025 to January 1, 2026 is one night. -/
theorem calculate_nights_day_difference_witness :
    (pyParseInt "2025" = some ((⟨2025, 12, 31⟩ : CalDate).year : Int) ∧
      pyParseInt "12" = some ((⟨2025, 12, 31⟩ : CalDate).month : Int) ∧
      pyParseInt "31" = some ((⟨2025, 12, 31⟩ : CalDate).day : Int) ∧
      pyParseInt "2026" = some ((nextDay^[1] (⟨2025, 12, 31⟩ : CalDate)).year : Int) ∧
      pyParseInt "1" = some ((nextDay^[1] (⟨2025, 12, 31⟩ : CalDate)).month : Int) ∧
      pyParseInt "1" = some ((nextDay^[1] (⟨2025, 12, 31⟩ : CalDate)).day : Int) ∧
      (∀ j, j ≤ 1 → validCalDate (nextDay^[j] (⟨2025, 12, 31⟩ : CalDate)) = true)) ∧
    calculateNights ⟨"31", "12", "2025"⟩ ⟨"1", "1", "2026"⟩ = .ok ((1 : Nat) : Int) :=
  ⟨⟨rfl, rfl, rfl, by rfl, by rfl, by rfl, by decide⟩,
    calculate_nights_day_difference ⟨"31", "12", "2025"⟩ ⟨"1", "1", "2026"⟩
      ⟨2025, 12, 31⟩ 1 rfl rfl rfl (by rfl) (by rfl) (by rfl) (by decide)⟩

/-- C5 counterexample: a request whose check-out equals its check-in is
accepted by the whole pipeline — `_build_request_payload` computes
`numOfNights = 0` without rejecting or flagging it, and `scrape` proceeds
to a success envelope — refuting "for any request accepted by the pipeline
the computed nights is ≥ 1". -/
theorem pipeline_accepts_zero_nights :
    buildRequestPayload
        ⟨"H1", ⟨"15", "12", "2025"⟩, ⟨"15", "12", "2025"⟩, 2, 0, [], 0, 1, "THB", "en", "TH"⟩ =
      .ok ⟨"H1", ⟨"15", "12", "2025"⟩, ⟨"15", "12", "2025"⟩, [], "THB", 2, 0, 0, 1⟩ ∧
    scrape ⟨"H1", ⟨"15", "12", "2025"⟩, ⟨"15", "12", "2025"⟩, 2, 0, [], 0, 1, "THB", "en", "TH"⟩
        "" (fun _ => .status 200 (some (roomsResponse []))) "t" =
      .ok (successEnvelope
        ⟨"H1", ⟨"15", "12", "2025"⟩, ⟨"15", "12", "2025"⟩, 2, 0, [], 0, 1, "THB", "en", "TH"⟩
        "" [] "t") ∧
    jlookup (successEnvelope
        ⟨"H1", ⟨"15", "12", "2025"⟩, ⟨"15", "12", "2025"⟩, 2, 0, [], 0, 1, "THB", "en", "TH"⟩
        "" [] "t") "success" = some (.bool true) :=
  ⟨rfl, rfl, rfl⟩

lemma optField_objGet (o : JObj) (k : String) (p : JValue → Bool) (dflt : JValue)
    (h : optField o k p = true) (hd : p dflt = true) : p (objGet o k dflt) = true := by
  unfold optField at h
  unfold objGet
  cases hl : jlookup o k with
  | none => simpa [hl] using hd
  | some v => rw [hl] at h; simpa [hl] using h

lemma anyBreakfast_ok (xs : List JValue) (h : xs.all wellFormedInclude = true) :
    ∃ b, anyBreakfast xs = .ok b := by
  induction xs with
  | nil => exact ⟨false, rfl⟩
  | cons inc rest ih =>
    simp only [List.all_cons, Bool.and_eq_true] at h
    obtain ⟨h1, h2⟩ := h
    cases inc with
    | obj io =>
      have hid : isStr (objGet io "id" (.str "")) = true :=
        optField_objGet io "id" isStr (.str "") (by simpa [wellFormedInclude] using h1) rfl
      cases hidv : objGet io "id" (.str "") with
      | str s =>
        by_cases hfb : s.toLower = "free_breakfast"
        · exact ⟨true, by simp [anyBreakfast, hidv, pyLower, hfb]⟩
        · obtain ⟨b, hb⟩ := ih h2
          exact ⟨b, by simp [anyBreakfast, hidv, pyLower, hfb, hb]⟩
      | null => rw [hidv] at hid; simp [isStr] at hid
      | bool b => rw [hidv] at hid; simp [isStr] at hid
      | num q => rw [hidv] at hid; simp [isStr] at hid
      | arr a => rw [hidv] at hid; simp [isStr] at hid
      | obj o2 => rw [hidv] at hid; simp [isStr] at hid
    | null => simp [wellFormedInclude] at h1
    | bool b => simp [wellFormedInclude] at h1
    | num q => simp [wellFormedInclude] at h1
    | str s => simp [wellFormedInclude] at h1
    | arr a => simp [wellFormedInclude] at h1

lemma findCancellation_ok (xs : List JValue) (h : xs.all wellFormedPolicy = true) :
    ∃ v, findCancellation xs = .ok v := by
  induction xs with
  | nil => exact ⟨.str "Not specified", rfl⟩
  | cons p rest ih =>
    simp only [List.all_cons, Bool.and_eq_true] at h
    obtain ⟨h1, h2⟩ := h
    cases p with
    | obj po =>
      have hty : isStr (objGet po "type" (.str "")) = true :=
        optField_objGet po "type" isStr (.str "") (by simpa [wellFormedPolicy] using h1) rfl
      cases htyv : objGet po "type" (.str "") with
      | str s =>
        by_cases hc : s.toLower = "cancellation"
        · exact ⟨objGet po "description" (.str ""),
            by simp [findCancellation, htyv, pyLower, hc]⟩
        · obtain ⟨v, hv⟩ := ih h2
          exact ⟨v, by simp [findCancellation, htyv, pyLower, hc, hv]⟩
      | null => rw [htyv] at hty; simp [isStr] at hty
      | bool b => rw [htyv] at hty; simp [isStr] at hty
      | num q => rw [htyv] at hty; simp [isStr] at hty
      | arr a => rw [htyv] at hty; simp [isStr] at hty
      | obj o2 => rw [htyv] at hty; simp [isStr] at hty
    | null => simp [wellFormedPolicy] at h1
    | bool b => simp [wellFormedPolicy] at h1
    | num q => simp [wellFormedPolicy] at h1
    | str s => simp [wellFormedPolicy] at h1
    | arr a => simp [wellFormedPolicy] at h1

lemma isNum_exists (v : JValue) (h : isNum v = true) : ∃ q : Int, v = .num q := by
  cases v <;> simp [isNum] at h ⊢

lemma isStr_exists (v : JValue) (h : isStr v = true) : ∃ s : String, v = .str s := by
  cases v <;> simp [isStr] at h ⊢

lemma isArr_of_allB (v : JValue) (q : JValue → Bool)
    (h : (match v with
          | .arr xs => xs.all q
          | _ => false) = true) : ∃ xs, v = .arr xs ∧ xs.all q = true := by
  cases v <;> simp_all

lemma isObj_of_matchB (v : JValue) (q : JObj → Bool)
    (h : (match v with
          | .obj oo => q oo
          | _ => false) = true) : ∃ oo, v = .obj oo ∧ q oo = true := by
  cases v <;> simp_all

set_option maxHeartbeats 1600000 in
lemma runParts_wf (ro : JObj) (h : wellFormedRate (.obj ro) = true) :
    ∃ po : JObj, objGet ro "price" (.obj []) = .obj po ∧
    ∃ s nv : Int,
      objGet po "netPrice" (.num 0) = .num nv ∧
      objGet po "shownPrice" (.num nv) = .num s ∧
    ∃ p : NormParts, runParts (.obj ro) = .ok p ∧
      p.rate_name = objGet ro "name" (.str "") ∧
      p.shown_price = .num s ∧
      p.net_price = .num nv ∧
      p.currency = objGet ro "currency" (.str "THB") ∧
      p.discount = (if s < nv then some ((.num s : JValue), (.num nv : JValue)) else none) ∧
      isStr p.rate_name = true ∧
      isNum p.total_price = true ∧
      isStr p.currency = true := by
  have hwf := h
  simp only [wellFormedRate, Bool.and_eq_true] at hwf
  obtain ⟨⟨⟨⟨⟨hname, hprice⟩, hcur⟩, hinc⟩, hpol⟩, hocc⟩ := hwf
  -- the price sub-object
  have hwp : wellFormedPrice (objGet ro "price" (.obj [])) = true :=
    optField_objGet ro "price" wellFormedPrice (.obj []) hprice rfl
  obtain ⟨po, hpo, hwpo⟩ : ∃ po, objGet ro "price" (.obj []) = .obj po ∧
      wellFormedPrice (.obj po) = true := by
    cases hv : objGet ro "price" (.obj []) <;> rw [hv] at hwp <;>
      first
        | exact ⟨_, rfl, hwp⟩
        | simp [wellFormedPrice] at hwp
  simp only [wellFormedPrice, Bool.and_eq_true] at hwpo
  obtain ⟨⟨⟨⟨⟨⟨hnp, hnppn⟩, hsp⟩, hsppn⟩, htp⟩, htppn⟩, htaxes⟩ := hwpo
  -- numeric price chain
  have hnetN : isNum (objGet po "netPrice" (.num 0)) = true :=
    optField_objGet po "netPrice" isNum (.num 0) hnp rfl
  obtain ⟨nv, hnet⟩ := isNum_exists _ hnetN
  have hshownN : isNum (objGet po "shownPrice" (.num nv)) = true :=
    optField_objGet po "shownPrice" isNum (.num nv) hsp rfl
  obtain ⟨s, hshown⟩ := isNum_exists _ hshownN
  have htotalN : isNum (objGet po "totalPrice" (.num s)) = true :=
    optField_objGet po "totalPrice" isNum (.num s) htp rfl
  -- taxes sub-object
  have htaxObj : (match objGet po "taxes" (.obj []) with
      | JValue.obj _ => true
      | _ => false) = true :=
    optField_objGet po "taxes" _ (.obj []) htaxes rfl
  obtain ⟨toxs, htax, -⟩ := isObj_of_matchB _ (fun _ => true) htaxObj
  -- includes
  have hincA : (match objGet ro "includes" (.arr []) with
      | JValue.arr xs => xs.all wellFormedInclude
      | _ => false) = true :=
    optField_objGet ro "includes" _ (.arr []) hinc rfl
  obtain ⟨incs, hincv, hincall⟩ := isArr_of_allB _ wellFormedInclude hincA
  obtain ⟨bf, hbf⟩ := anyBreakfast_ok incs hincall
  -- policies
  have hpolA : (match objGet ro "policies" (.arr []) with
      | JValue.arr xs => xs.all wellFormedPolicy
      | _ => false) = true :=
    optField_objGet ro "policies" _ (.arr []) hpol rfl
  obtain ⟨pols, hpolv, hpolall⟩ := isArr_of_allB _ wellFormedPolicy hpolA
  obtain ⟨cp, hcp⟩ := findCancellation_ok pols hpolall
  -- occupancy
  have hoccO : (match objGet ro "occupancy" (.obj []) with
      | JValue.obj oo => optField oo "numAdults" isNum && optField oo "numChildren" isNum
      | _ => false) = true :=
    optField_objGet ro "occupancy" _ (.obj []) hocc rfl
  obtain ⟨oo, hoov, hooq⟩ := isObj_of_matchB _
    (fun oo => optField oo "numAdults" isNum && optField oo "numChildren" isNum) hoccO
  simp only [Bool.and_eq_true] at hooq
  obtain ⟨hna, hnc⟩ := hooq
  obtain ⟨ga, hga⟩ := isNum_exists _ (optField_objGet oo "numAdults" isNum (.num 0) hna rfl)
  obtain ⟨gc, hgc⟩ := isNum_exists _ (optField_objGet oo "numChildren" isNum (.num 0) hnc rfl)
  -- assemble
  refine ⟨po, hpo, s, nv, hnet, hshown,
    { rate_name := objGet ro "name" (.str "")
      net_price := .num nv
      net_price_per_night := objGet po "netPricePerNight" (.num nv)
      shown_price := .num s
      shown_price_per_night := objGet po "shownPricePerNight" (.num s)
      total_price := objGet po "totalPrice" (.num s)
      total_price_per_night := objGet po "totalPricePerNight" (objGet po "totalPrice" (.num s))
      total_taxes := objGet toxs "totalTaxAmount" (.num 0)
      discount := if s < nv then some (.num s, .num nv) else none
      breakfast_included := bf
      cancellation_policy := cp
      num_guests := .num (ga + gc)
      currency := objGet ro "currency" (.str "THB") }, ?_, rfl, rfl, rfl, rfl, rfl, ?_, ?_, ?_⟩
  · simp only [runParts, hpo, hnet, hshown, htax, hincv, hpolv, hoov, hga, hgc,
      pyIter, pyLt, pyAdd, hbf, hcp]
    by_cases hlt : s < nv <;> simp [hlt]
  · exact isStr_exists _ (optField_objGet ro "name" isStr (.str "") hname rfl) |>.elim
      fun t ht => by rw [ht]; rfl
  · exact htotalN
  · exact isStr_exists _ (optField_objGet ro "currency" isStr (.str "THB") hcur rfl) |>.elim
      fun t ht => by rw [ht]; rfl

lemma mkRecord_lookup_room_name (rn : JValue) (p : NormParts) :
    jlookup (mkRecord rn p) "room_name" = some rn := by
  unfold mkRecord
  rcases p.discount with _ | ⟨dp, op⟩ <;> cases pyTruthy p.shown_price_per_night <;>
    simp [jlookup_append, jlookup]

lemma mkRecord_lookup_rate_name (rn : JValue) (p : NormParts) :
    jlookup (mkRecord rn p) "rate_name" = some p.rate_name := by
  unfold mkRecord
  rcases p.discount with _ | ⟨dp, op⟩ <;> cases pyTruthy p.shown_price_per_night <;>
    simp [jlookup_append, jlookup]

lemma mkRecord_lookup_currency (rn : JValue) (p : NormParts) :
    jlookup (mkRecord rn p) "currency" = some p.currency := by
  unfold mkRecord
  rcases p.discount with _ | ⟨dp, op⟩ <;> cases pyTruthy p.shown_price_per_night <;>
    simp [jlookup_append, jlookup]

lemma mkRecord_lookup_total_price (rn : JValue) (p : NormParts) :
    jlookup (mkRecord rn p) "total_price" = some p.total_price := by
  unfold mkRecord
  rcases p.discount with _ | ⟨dp, op⟩ <;> cases pyTruthy p.shown_price_per_night <;>
    simp [jlookup_append, jlookup]

lemma mkRecord_lookup_price (rn : JValue) (p : NormParts) :
    jlookup (mkRecord rn p) "price" =
      some (match p.discount with
            | some (dp, _) => dp
            | none => p.shown_price) := by
  unfold mkRecord
  rcases hd : p.discount with _ | ⟨dp, op⟩ <;> cases pyTruthy p.shown_price_per_night <;>
    simp [jlookup_append, jlookup]

lemma mkRecord_lookup_original_price (rn : JValue) (p : NormParts) :
    jlookup (mkRecord rn p) "original_price" =
      (match p.discount with
       | some (_, op) => some op
       | none => none) := by
  unfold mkRecord
  rcases hd : p.discount with _ | ⟨dp, op⟩ <;> cases pyTruthy p.shown_price_per_night <;>
    simp [jlookup_append, jlookup]

lemma nonNullKey_of_num (r : JObj) (k : String) (v : JValue)
    (h : jlookup r k = some v) (hv : isNum v = true) : nonNullKey r k = true := by
  unfold nonNullKey
  rw [h]
  cases v <;> simp_all [isNum]

lemma nonNullKey_of_str (r : JObj) (k : String) (v : JValue)
    (h : jlookup r k = some v) (hv : isStr v = true) : nonNullKey r k = true := by
  unfold nonNullKey
  rw [h]
  cases v <;> simp_all [isStr]

lemma normalizeRate_wf (rn : JValue) (hrn : isStr rn = true) (rate : JValue)
    (h : wellFormedRate rate = true) :
    ∃ r, normalizeRate rn rate = some r ∧ goodRecordB r = true := by
  obtain ⟨ro, rfl⟩ : ∃ ro, rate = .obj ro := by
    cases rate <;> simp_all [wellFormedRate]
  obtain ⟨po, hpo, s, nv, hnet, hshown, p, hrp, hrnm, hsp, hnp, hcu, hdc, hrns, htpn, hcus⟩ :=
    runParts_wf ro h
  refine ⟨mkRecord rn p, by simp [normalizeRate, hrp], ?_⟩
  unfold goodRecordB
  have h1 := nonNullKey_of_str _ "room_name" rn (mkRecord_lookup_room_name rn p) hrn
  have h2 := nonNullKey_of_str _ "rate_name" p.rate_name (mkRecord_lookup_rate_name rn p) hrns
  have h4 := nonNullKey_of_str _ "currency" p.currency (mkRecord_lookup_currency rn p) hcus
  have h5 := nonNullKey_of_num _ "total_price" p.total_price
    (mkRecord_lookup_total_price rn p) htpn
  have h3 : nonNullKey (mkRecord rn p) "price" = true := by
    refine nonNullKey_of_num _ "price" _ (mkRecord_lookup_price rn p) ?_
    rw [hdc]
    by_cases hlt : s < nv <;> simp [hlt, hsp, isNum]
  rw [h1, h2, h3, h4, h5]
  rfl

/-- Does `runParts` succeed on this rate entry (is the entry normalizable)? -/
def runPartsOk (rate : JValue) : Bool :=
  match runParts rate with
  | .ok _ => true
  | .error _ => false


lemma processRates_counts (rn : JValue) (rl : List JValue) :
    (processRates rn rl).1.length = rl.countP runPartsOk ∧
    (processRates rn rl).1.length + (processRates rn rl).2 = rl.length := by
  induction rl with
  | nil => simp [processRates]
  | cons rate rest ih =>
    obtain ⟨ih1, ih2⟩ := ih
    cases hr : runParts rate with
    | ok p =>
      simp [processRates, normalizeRate, hr, List.countP_cons, runPartsOk, ih1]
      omega
    | error e =>
      simp [processRates, normalizeRate, hr, List.countP_cons, runPartsOk, ih1]
      omega

lemma roomPieces_structOk (o : JObj) (h : roomStructOk (.obj o) = true) :
    roomPieces (.obj o) = .ok (objGet o "name" (.str ""), ratesOf (.obj o)) := by
  simp only [roomStructOk] at h
  unfold roomPieces dictGet
  unfold optField at h
  cases hr : jlookup o "rates" with
  | none => simp [objGet, hr, pyIter, ratesOf]
  | some v =>
    rw [hr] at h
    cases v <;> simp_all [objGet, hr, pyIter, ratesOf]

lemma allRates_cons (room : JValue) (rest : List JValue) :
    allRates (room :: rest) = ratesOf room ++ allRates rest := by
  simp [allRates]

lemma processRooms_counts (rooms : List JValue)
    (h : ∀ room ∈ rooms, roomStructOk room = true) :
    (processRooms rooms).2.2 = false ∧
    (processRooms rooms).1.length = (allRates rooms).countP runPartsOk ∧
    (processRooms rooms).1.length + (processRooms rooms).2.1 = (allRates rooms).length := by
  induction rooms with
  | nil => simp [processRooms, allRates]
  | cons room rest ih =>
    have hroom := h room (by simp)
    obtain ⟨o, rfl⟩ : ∃ o, room = .obj o := by
      cases room <;> simp_all [roomStructOk]
    obtain ⟨ih1, ih2, ih3⟩ := ih fun r hr => h r (by simp [hr])
    obtain ⟨pc1, pc2⟩ := processRates_counts (objGet o "name" (.str "")) (ratesOf (.obj o))
    simp only [processRooms, roomPieces_structOk o hroom, allRates_cons,
      List.countP_append, List.length_append]
    refine ⟨ih1, ?_, ?_⟩
    · simp [pc1, ih2]
    · omega

lemma wellFormedRoom_parts (o : JObj) (h : wellFormedRoom (.obj o) = true) :
    roomStructOk (.obj o) = true ∧
    isStr (objGet o "name" (.str "")) = true ∧
    (∀ rate ∈ ratesOf (.obj o), wellFormedRate rate = true) := by
  simp only [wellFormedRoom, Bool.and_eq_true] at h
  obtain ⟨hname, hrates⟩ := h
  refine ⟨?_, ?_, ?_⟩
  · simp only [roomStructOk]
    unfold optField at hrates ⊢
    cases hr : jlookup o "rates" with
    | none => rfl
    | some v => rw [hr] at hrates; cases v <;> simp_all
  · exact optField_objGet o "name" isStr (.str "") hname rfl
  · intro rate hrm
    simp only [ratesOf] at hrm
    unfold optField at hrates
    cases hr : jlookup o "rates" with
    | none => rw [hr] at hrm; simp at hrm
    | some v =>
      rw [hr] at hrates hrm
      cases v <;> simp_all [List.all_eq_true]

lemma processRates_wf (rn : JValue) (hrn : isStr rn = true) (rl : List JValue)
    (h : ∀ rate ∈ rl, wellFormedRate rate = true) :
    (processRates rn rl).1.length = rl.length ∧
    (processRates rn rl).2 = 0 ∧
    ∀ r ∈ (processRates rn rl).1, goodRecordB r = true := by
  induction rl with
  | nil => simp [processRates]
  | cons rate rest ih =>
    obtain ⟨r0, hr0, hg0⟩ := normalizeRate_wf rn hrn rate (h rate (by simp))
    obtain ⟨ih1, ih2, ih3⟩ := ih fun x hx => h x (by simp [hx])
    simp only [processRates, hr0]
    refine ⟨by simp [ih1], by simp [ih2], ?_⟩
    intro r hrm
    simp only [List.mem_cons] at hrm
    rcases hrm with rfl | hrm
    · exact hg0
    · exact ih3 r hrm

lemma processRooms_wf (rooms : List JValue)
    (h : ∀ room ∈ rooms, wellFormedRoom room = true) :
    (processRooms rooms).2.2 = false ∧
    (processRooms rooms).2.1 = 0 ∧
    (processRooms rooms).1.length = (allRates rooms).length ∧
    ∀ r ∈ (processRooms rooms).1, goodRecordB r = true := by
  induction rooms with
  | nil => simp [processRooms, allRates]
  | cons room rest ih =>
    have hroom := h room (by simp)
    obtain ⟨o, rfl⟩ : ∃ o, room = .obj o := by
      cases room <;> simp_all [wellFormedRoom]
    obtain ⟨hso, hnm, hall⟩ := wellFormedRoom_parts o hroom
    obtain ⟨ih1, ih2, ih3, ih4⟩ := ih fun r hr => h r (by simp [hr])
    obtain ⟨pw1, pw2, pw3⟩ := processRates_wf (objGet o "name" (.str "")) hnm
      (ratesOf (.obj o)) hall
    simp only [processRooms, roomPieces_structOk o hso, allRates_cons,
      List.length_append]
    refine ⟨ih1, by omega, by omega, ?_⟩
    intro r hrm
    simp only [List.mem_append] at hrm
    rcases hrm with hrm | hrm
    · exact pw3 r hrm
    · exact ih4 r hrm

lemma extractRates_roomsResponse (rooms : List JValue) :
    extractRates (roomsResponse rooms) =
      ⟨if (processRooms rooms).2.2 then [] else (processRooms rooms).1,
        (processRooms rooms).2.1, (processRooms rooms).2.2⟩ := by
  simp [extractRates, roomsResponse, dictGet, objGet, jlookup, pyIter]

/-- C1: for a response whose rooms all carry well-formed rate entries, the
normalizer emits exactly one record per rate entry (no warnings, no
abort), and every emitted record has non-null `room_name`, `rate_name`,
`price`, `currency` and `total_price`. -/
theorem extract_rates_wellformed (rooms : List JValue)
    (h : ∀ room ∈ rooms, wellFormedRoom room = true) :
    (extractRates (roomsResponse rooms)).aborted = false ∧
    (extractRates (roomsResponse rooms)).warnings = 0 ∧
    (extractRates (roomsResponse rooms)).records.length = (allRates rooms).length ∧
    ∀ r ∈ (extractRates (roomsResponse rooms)).records, goodRecordB r = true := by
  obtain ⟨h1, h2, h3, h4⟩ := processRooms_wf rooms h
  rw [extractRates_roomsResponse rooms]
  refine ⟨by simp [h1], by simp [h2], by simp [h1, h3], ?_⟩
  intro r hr
  simp only [h1, Bool.false_eq_true, if_false] at hr
  exact h4 r hr

/-- C3: for a response with five rate entries of which exactly one is
malformed (normalization of it fails) — in any position, in one room or
spread over several rooms — extraction emits exactly four records and
logs exactly one per-rate warning; the malformed entry does not abort
normalization of the rest. -/
theorem extract_rates_one_malformed (rooms : List JValue)
    (hstruct : ∀ room ∈ rooms, roomStructOk room = true)
    (hlen : (allRates rooms).length = 5)
    (hok : (allRates rooms).countP runPartsOk = 4) :
    (extractRates (roomsResponse rooms)).records.length = 4 ∧
    (extractRates (roomsResponse rooms)).warnings = 1 ∧
    (extractRates (roomsResponse rooms)).aborted = false := by
  obtain ⟨h1, h2, h3⟩ := processRooms_counts rooms hstruct
  rw [extractRates_roomsResponse rooms]
  refine ⟨by simp [h1, h2, hok], ?_, by simp [h1]⟩
  show (processRooms rooms).2.1 = 1
  omega

/-- C2: for a well-formed rate entry carrying explicit shown and net prices,
the emitted record has `price` equal to the shown price, and carries
`original_price` equal to the net price exactly when shown < net; when
shown is not below net, no `original_price` field is present. -/
theorem normalize_rate_discount (rn : JValue) (ro po : JObj) (s n : Int)
    (hwf : wellFormedRate (.obj ro) = true)
    (hpo : jlookup ro "price" = some (.obj po))
    (hs : jlookup po "shownPrice" = some (.num s))
    (hn : jlookup po "netPrice" = some (.num n)) :
    ∃ r, normalizeRate rn (.obj ro) = some r ∧
      (s < n →
        jlookup r "price" = some (.num s) ∧
        jlookup r "original_price" = some (.num n)) ∧
      (¬ s < n →
        jlookup r "price" = some (.num s) ∧
        jlookup r "original_price" = none) := by
  obtain ⟨po', hpo', s', nv', hnet', hshown', p, hrp, hrnm, hsp, hnp, hcu, hdc,
    hrns, htpn, hcus⟩ := runParts_wf ro hwf
  have hgo : objGet ro "price" (.obj []) = .obj po := by simp [objGet, hpo]
  rw [hgo] at hpo'
  injection hpo' with hpoe
  subst hpoe
  have hgn : objGet po "netPrice" (.num 0) = .num n := by simp [objGet, hn]
  rw [hgn] at hnet'
  injection hnet' with hne
  subst hne
  have hgs : objGet po "shownPrice" (.num n) = .num s := by simp [objGet, hs]
  rw [hgs] at hshown'
  injection hshown' with hse
  subst hse
  refine ⟨mkRecord rn p, by simp [normalizeRate, hrp], ?_, ?_⟩
  · intro hlt
    have hd : p.discount = some (.num s, .num n) := by rw [hdc]; simp [hlt]
    constructor
    · rw [mkRecord_lookup_price, hd]
    · rw [mkRecord_lookup_original_price, hd]
  · intro hlt
    have hd : p.discount = none := by rw [hdc]; simp [hlt]
    constructor
    · rw [mkRecord_lookup_price, hd, hsp]
    · rw [mkRecord_lookup_original_price, hd]

/-- Witness for C1: two rooms with three well-formed rate entries in total. -/
theorem extract_rates_wellformed_witness :
    (∀ room ∈
        [JValue.obj [("name", .str "Deluxe"), ("rates", .arr
          [.obj [("name", .str "Flexible"),
                 ("price", .obj [("shownPrice", .num 1000), ("netPrice", .num 1200)]),
                 ("currency", .str "THB")],
           .obj [("name", .str "Basic")]])],
         JValue.obj [("name", .str "Suite"), ("rates", .arr
          [.obj [("name", .str "Saver"),
                 ("price", .obj [("shownPrice", .num 2000), ("netPrice", .num 1800),
                                 ("totalPrice", .num 2100)])]])]],
      wellFormedRoom room = true) ∧
    ((extractRates (roomsResponse
        [JValue.obj [("name", .str "Deluxe"), ("rates", .arr
          [.obj [("name", .str "Flexible"),
                 ("price", .obj [("shownPrice", .num 1000), ("netPrice", .num 1200)]),
                 ("currency", .str "THB")],
           .obj [("name", .str "Basic")]])],
         JValue.obj [("name", .str "Suite"), ("rates", .arr
          [.obj [("name", .str "Saver"),
                 ("price", .obj [("shownPrice", .num 2000), ("netPrice", .num 1800),
                                 ("totalPrice", .num 2100)])]])]])).aborted = false ∧
      (extractRates (roomsResponse
        [JValue.obj [("name", .str "Deluxe"), ("rates", .arr
          [.obj [("name", .str "Flexible"),
                 ("price", .obj [("shownPrice", .num 1000), ("netPrice", .num 1200)]),
                 ("currency", .str "THB")],
           .obj [("name", .str "Basic")]])],
         JValue.obj [("name", .str "Suite"), ("rates", .arr
          [.obj [("name", .str "Saver"),
                 ("price", .obj [("shownPrice", .num 2000), ("netPrice", .num 1800),
                                 ("totalPrice", .num 2100)])]])]])).warnings = 0 ∧
      (extractRates (roomsResponse
        [JValue.obj [("name", .str "Deluxe"), ("rates", .arr
          [.obj [("name", .str "Flexible"),
                 ("price", .obj [("shownPrice", .num 1000), ("netPrice", .num 1200)]),
                 ("currency", .str "THB")],
           .obj [("name", .str "Basic")]])],
         JValue.obj [("name", .str "Suite"), ("rates", .arr
          [.obj [("name", .str "Saver"),
                 ("price", .obj [("shownPrice", .num 2000), ("netPrice", .num 1800),
                                 ("totalPrice", .num 2100)])]])]])).records.length =
        (allRates
          [JValue.obj [("name", .str "Deluxe"), ("rates", .arr
            [.obj [("name", .str "Flexible"),
                   ("price", .obj [("shownPrice", .num 1000), ("netPrice", .num 1200)]),
                   ("currency", .str "THB")],
             .obj [("name", .str "Basic")]])],
           JValue.obj [("name", .str "Suite"), ("rates", .arr
            [.obj [("name", .str "Saver"),
                   ("price", .obj [("shownPrice", .num 2000), ("netPrice", .num 1800),
                                   ("totalPrice", .num 2100)])]])]]).length ∧
      ∀ r ∈ (extractRates (roomsResponse
        [JValue.obj [("name", .str "Deluxe"), ("rates", .arr
          [.obj [("name", .str "Flexible"),
                 ("price", .obj [("shownPrice", .num 1000), ("netPrice", .num 1200)]),
                 ("currency", .str "THB")],
           .obj [("name", .str "Basic")]])],
         JValue.obj [("name", .str "Suite"), ("rates", .arr
          [.obj [("name", .str "Saver"),
                 ("price", .obj [("shownPrice", .num 2000), ("netPrice", .num 1800),
                                 ("totalPrice", .num 2100)])]])]])).records,
        goodRecordB r = true) :=
  ⟨by decide, extract_rates_wellformed _ (by decide)⟩

/-- Witness for C3: one room with five rate entries, the third one malformed
(`null` is not a dict, so normalizing it raises and is skipped). -/
theorem extract_rates_one_malformed_witness :
    ((∀ room ∈
        [JValue.obj [("name", .str "Deluxe"), ("rates", .arr
          [.obj [("name", .str "R1")], .obj [("name", .str "R2")], .null,
           .obj [("name", .str "R4")], .obj [("name", .str "R5")]])]],
      roomStructOk room = true) ∧
      (allRates
        [JValue.obj [("name", .str "Deluxe"), ("rates", .arr
          [.obj [("name", .str "R1")], .obj [("name", .str "R2")], .null,
           .obj [("name", .str "R4")], .obj [("name", .str "R5")]])]]).length = 5 ∧
      (allRates
        [JValue.obj [("name", .str "Deluxe"), ("rates", .arr
          [.obj [("name", .str "R1")], .obj [("name", .str "R2")], .null,
           .obj [("name", .str "R4")], .obj [("name", .str "R5")]])]]).countP
        runPartsOk = 4) ∧
    ((extractRates (roomsResponse
        [JValue.obj [("name", .str "Deluxe"), ("rates", .arr
          [.obj [("name", .str "R1")], .obj [("name", .str "R2")], .null,
           .obj [("name", .str "R4")], .obj [("name", .str "R5")]])]])).records.length = 4 ∧
      (extractRates (roomsResponse
        [JValue.obj [("name", .str "Deluxe"), ("rates", .arr
          [.obj [("name", .str "R1")], .obj [("name", .str "R2")], .null,
           .obj [("name", .str "R4")], .obj [("name", .str "R5")]])]])).warnings = 1 ∧
      (extractRates (roomsResponse
        [JValue.obj [("name", .str "Deluxe"), ("rates", .arr
          [.obj [("name", .str "R1")], .obj [("name", .str "R2")], .null,
           .obj [("name", .str "R4")], .obj [("name", .str "R5")]])]])).aborted = false) :=
  ⟨⟨by decide, by decide, by decide⟩,
    extract_rates_one_malformed _ (by decide) (by decide) (by decide)⟩

/-- Witness for C2: a rate with shown price 1000 below net price 1200. -/
theorem normalize_rate_discount_witness :
    (wellFormedRate (.obj
        [("name", .str "Flexible"),
         ("price", .obj [("shownPrice", .num 1000), ("netPrice", .num 1200)]),
         ("currency", .str "THB")]) = true ∧
      jlookup [("name", JValue.str "Flexible"),
         ("price", .obj [("shownPrice", .num 1000), ("netPrice", .num 1200)]),
         ("currency", .str "THB")] "price" =
        some (.obj [("shownPrice", .num 1000), ("netPrice", .num 1200)]) ∧
      jlookup [("shownPrice", JValue.num 1000), ("netPrice", .num 1200)] "shownPrice" =
        some (.num 1000) ∧
      jlookup [("shownPrice", JValue.num 1000), ("netPrice", .num 1200)] "netPrice" =
        some (.num 1200)) ∧
    (∃ r, normalizeRate (.str "Deluxe") (.obj
        [("name", .str "Flexible"),
         ("price", .obj [("shownPrice", .num 1000), ("netPrice", .num 1200)]),
         ("currency", .str "THB")]) = some r ∧
      ((1000 : Int) < 1200 →
        jlookup r "price" = some (.num 1000) ∧
        jlookup r "original_price" = some (.num 1200)) ∧
      (¬ (1000 : Int) < 1200 →
        jlookup r "price" = some (.num 1000) ∧
        jlookup r "original_price" = none)) :=
  ⟨⟨by decide, rfl, rfl, rfl⟩,
    normalize_rate_discount (.str "Deluxe")
      [("name", .str "Flexible"),
       ("price", .obj [("shownPrice", .num 1000), ("netPrice", .num 1200)]),
       ("currency", .str "THB")]
      [("shownPrice", .num 1000), ("netPrice", .num 1200)] 1000 1200
      (by decide) rfl rfl rfl⟩
